import Mathlib

/-!
Shallow embedding of the csres resolution-monitor program (Go) and proofs
about it.  Go strings are modelled as Lean `String` where no index
arithmetic is needed, and as `List Char` for the GUI list-entry codec
(all delimiters involved are ASCII, so byte indices and rune indices
identify the same split points).  Go `uint32` fields are modelled as
`Nat`; Go `int` as `Int`.  Platform syscalls (Win32 display / process /
file APIs) are modelled as explicit oracle arguments: a function or value
supplied to the embedded definition that stands for the outcome the OS
would return.
-/

namespace Csres

/-- Resolution mirrors the Go struct in config.go: Width, Height, Frequency
are uint32 (frequency 0 means unspecified). -/
structure Resolution where
  width : Nat
  height : Nat
  frequency : Nat
deriving DecidableEq, Repr

/-- AppConfig mirrors the Go struct in config.go: process name, target
resolution, monitor device name (empty = primary), optional restore
resolution (none = use captured original). -/
structure AppConfig where
  processName : String
  resolution : Resolution
  monitorName : String
  restoreResolution : Option Resolution
deriving DecidableEq, Repr

/-- Config mirrors the Go struct in config.go.  PollInterval is a Go `int`,
modelled as `Int`. -/
structure Config where
  applications : List AppConfig
  pollInterval : Int
  showGUIOnLaunch : Bool
  startWithWindows : Bool
  autoStartMonitoring : Bool
deriving DecidableEq, Repr

/-- Opaque Go error values: each constructor is one of the distinct
`fmt.Errorf` sites relevant to the claims; `wrapped` carries an error
propagated from an oracle (os.ReadFile, json.Unmarshal, ...). -/
inductive GoError where
  | wrapped (site : String) (cause : GoError)
  | readFailed
  | parseFailed
  | notSupportedPre
  | monitorStateFailed
  | monitorNotActive
  | enumSettingsFailed
  | badMode
  | badFlags
  | badParam
  | badDualView
  | retriesExhausted (last : GoError)
  | restartRequired
  | changeFailed
  | notUpdated
  | unknownChange
deriving DecidableEq, Repr

/- ------------------------------------------------------------------
display.go (second, current version): IsModeSupported, IsResolutionEqual,
ChangeResolutionForMonitor.
------------------------------------------------------------------- -/

/-- One enumerated display mode as read out of a DEVMODE record
(DmPelsWidth, DmPelsHeight, DmDisplayFrequency). -/
structure DevMode where
  pelsWidth : Nat
  pelsHeight : Nat
  displayFrequency : Nat
deriving DecidableEq, Repr

/-- IsModeSupported from display.go lines 422-454: enumerate all modes of
the monitor (the oracle `modes` stands for successive
EnumDisplaySettingsW calls until one returns 0) and return true at the
first mode whose width and height match and whose frequency matches or
whose target frequency is 0. -/
def isModeSupported (modes : List DevMode) (target : Resolution) : Bool :=
  modes.any fun m =>
    m.pelsWidth == target.width && m.pelsHeight == target.height &&
      (target.frequency == 0 || m.displayFrequency == target.frequency)

/-- IsResolutionEqual from display.go lines 626-629: exact equality of
width, height and frequency. -/
def isResolutionEqual (r1 r2 : Resolution) : Bool :=
  r1.width == r2.width && r1.height == r2.height && r1.frequency == r2.frequency

/-- Return codes of ChangeDisplaySettings(Ex)W as matched by the switch
statements in display.go lines 564-618. -/
inductive DispChange where
  | successful
  | restart
  | badMode
  | failed
  | notUpdated
  | badFlags
  | badParam
  | badDualView
  | unknown
deriving DecidableEq, Repr

/-- The transient return codes: exactly the switch cases of
ChangeResolutionForMonitor that set lastError and `continue` the retry
loop (DISP_CHANGE_RESTART, DISP_CHANGE_FAILED, DISP_CHANGE_NOTUPDATED and
the default case). -/
def DispChange.isTransient : DispChange → Bool
  | .restart => true
  | .failed => true
  | .notUpdated => true
  | .unknown => true
  | _ => false

/-- The error returned for a transient code when it is recorded into
lastError. -/
def DispChange.lastError : DispChange → GoError
  | .restart => .restartRequired
  | .failed => .changeFailed
  | .notUpdated => .notUpdated
  | _ => .unknownChange

/-- Observable outcome of one ChangeResolutionForMonitor call: the Go
return value, the number of ChangeDisplaySettings(Ex)W calls issued, and
the number of 500 ms sleeps taken between attempts. -/
structure ChangeOutcome where
  result : Except GoError Unit
  calls : Nat
  sleeps : Nat
deriving Repr

/-- Retry loop of ChangeResolutionForMonitor (display.go lines 542-624),
for retry = maxRetries - remaining up to maxRetries - 1.  `attempts i` is
the return code of the i-th ChangeDisplaySettings(Ex)W call (the two
branches of the source, monitor-specific and primary, run the identical
switch over the same codes, so a single oracle models both).  A retry
with index greater than 0 is preceded by a 500 ms sleep.  Terminal codes
(DISP_CHANGE_BADMODE, BADFLAGS, BADPARAM, BADDUALVIEW) return at once;
transient codes record lastError and continue; running out of attempts
returns the retries-exhausted error wrapping lastError. -/
def retryLoop (attempts : Nat → DispChange) (maxRetries : Nat) :
    Nat → GoError → ChangeOutcome
  | 0, lastErr => ⟨.error (.retriesExhausted lastErr), 0, 0⟩
  | remaining + 1, _ =>
    let retry := maxRetries - (remaining + 1)
    let sleepHere := if retry > 0 then 1 else 0
    match attempts retry with
    | .successful => ⟨.ok (), 1, sleepHere⟩
    | .badMode => ⟨.error .badMode, 1, sleepHere⟩
    | .badFlags => ⟨.error .badFlags, 1, sleepHere⟩
    | .badParam => ⟨.error .badParam, 1, sleepHere⟩
    | .badDualView => ⟨.error .badDualView, 1, sleepHere⟩
    | code =>
      let rest := retryLoop attempts maxRetries remaining code.lastError
      ⟨rest.result, rest.calls + 1, rest.sleeps + sleepHere⟩

/-- ChangeResolutionForMonitor from display.go lines 462-624.  Oracles:
`modes` feeds the IsModeSupported pre-check; `stateOk` is the outcome of
the EnumDisplayDevicesW monitor-state check performed only for a named
monitor (true when the call succeeds and the state flags show the monitor
attached or active); `enumOk` is the outcome of the
EnumDisplaySettingsW(ENUM_CURRENT_SETTINGS) read; `attempts` gives the
return code of each ChangeDisplaySettings(Ex)W call.  maxRetries is the
literal 3 of the source. -/
def changeResolutionForMonitor (modes : List DevMode) (stateOk : Bool)
    (enumOk : Bool) (attempts : Nat → DispChange) (resolution : Resolution)
    (monitorName : String) : ChangeOutcome :=
  if !isModeSupported modes resolution then
    ⟨.error .notSupportedPre, 0, 0⟩
  else if monitorName != "" && !stateOk then
    ⟨.error .monitorStateFailed, 0, 0⟩
  else if !enumOk then
    ⟨.error .enumSettingsFailed, 0, 0⟩
  else
    retryLoop attempts 3 3 .unknownChange

/-- Unfolding step of the retry loop at a transient return code. -/
theorem retryLoop_step_transient (attempts : Nat → DispChange) (maxR remaining : Nat)
    (e : GoError) (h : (attempts (maxR - (remaining + 1))).isTransient = true) :
    retryLoop attempts maxR (remaining + 1) e =
      ⟨(retryLoop attempts maxR remaining ((attempts (maxR - (remaining + 1))).lastError)).result,
       (retryLoop attempts maxR remaining ((attempts (maxR - (remaining + 1))).lastError)).calls + 1,
       (retryLoop attempts maxR remaining ((attempts (maxR - (remaining + 1))).lastError)).sleeps +
         (if maxR - (remaining + 1) > 0 then 1 else 0)⟩ := by
  cases hc : attempts (maxR - (remaining + 1)) <;>
    simp only [retryLoop, hc] <;>
    simp [DispChange.isTransient, hc] at h ⊢

/-- The retry loop makes at least one display-settings call when it has at
least one attempt left. -/
theorem retryLoop_calls_pos (attempts : Nat → DispChange) (maxR remaining : Nat)
    (e : GoError) : 1 ≤ (retryLoop attempts maxR (remaining + 1) e).calls := by
  cases hc : attempts (maxR - (remaining + 1)) <;> simp [retryLoop, hc]

/-- When every attempt returns a transient code, the 3-attempt loop issues
exactly 3 calls, sleeps twice, and fails with the retries-exhausted error
wrapping the last transient error. -/
theorem retryLoop_all_transient (attempts : Nat → DispChange) (e : GoError)
    (h : ∀ i, (attempts i).isTransient = true) :
    retryLoop attempts 3 3 e =
      ⟨.error (.retriesExhausted ((attempts 2).lastError)), 3, 2⟩ := by
  have s0 := retryLoop_step_transient attempts 3 2 e (by simpa using h 0)
  have s1 := retryLoop_step_transient attempts 3 1 ((attempts 0).lastError)
    (by simpa using h 1)
  have s2 := retryLoop_step_transient attempts 3 0 ((attempts 1).lastError)
    (by simpa using h 2)
  simp only [show 3 - (2 + 1) = 0 by rfl, show 3 - (1 + 1) = 1 by rfl,
    show 3 - (0 + 1) = 2 by rfl] at s0 s1 s2
  rw [show (3 : Nat) = 2 + 1 by rfl] at s0
  rw [s0, s1, s2]
  simp [retryLoop]

/-- C2: a ChangeResolutionForMonitor call whose ChangeDisplaySettings(Ex)W
call fails with a transient (retryable) code on every attempt is attempted
exactly 3 times, with a 500 ms sleep before each of the two retries, and
then returns the retries-exhausted failure; it is never retried further. -/
theorem changeResolution_transient_attempted_exactly_three_times
    (modes : List DevMode) (attempts : Nat → DispChange)
    (resolution : Resolution) (monitorName : String)
    (hsup : isModeSupported modes resolution = true)
    (htrans : ∀ i, (attempts i).isTransient = true) :
    (changeResolutionForMonitor modes true true attempts resolution monitorName).calls = 3 ∧
    (changeResolutionForMonitor modes true true attempts resolution monitorName).sleeps = 2 ∧
    ∃ e, (changeResolutionForMonitor modes true true attempts resolution
      monitorName).result = .error (.retriesExhausted e) := by
  unfold changeResolutionForMonitor
  rw [hsup]
  simp only [Bool.not_true, Bool.and_false, Bool.false_eq_true, if_false,
    Bool.not_false, if_true]
  rw [retryLoop_all_transient attempts _ htrans]
  exact ⟨rfl, rfl, _, rfl⟩

/-- Witness for the C2 theorem at a concrete transient-failure scenario:
every attempt reports DISP_CHANGE_FAILED on monitor \\.\DISPLAY1. -/
theorem changeResolution_transient_attempted_exactly_three_times_witness :
    (changeResolutionForMonitor [⟨1280, 960, 144⟩] true true (fun _ => .failed)
      ⟨1280, 960, 144⟩ "\\\\.\\DISPLAY1").calls = 3 ∧
    (changeResolutionForMonitor [⟨1280, 960, 144⟩] true true (fun _ => .failed)
      ⟨1280, 960, 144⟩ "\\\\.\\DISPLAY1").sleeps = 2 ∧
    ∃ e, (changeResolutionForMonitor [⟨1280, 960, 144⟩] true true (fun _ => .failed)
      ⟨1280, 960, 144⟩ "\\\\.\\DISPLAY1").result = .error (.retriesExhausted e) :=
  changeResolution_transient_attempted_exactly_three_times
    [⟨1280, 960, 144⟩] (fun _ => .failed) ⟨1280, 960, 144⟩ "\\\\.\\DISPLAY1"
    (by decide) (fun _ => rfl)

/-- C3 counterexample: the claim says a call failing with RestartRequired
is not retried and returns immediately with a single attempt; in the code
DISP_CHANGE_RESTART falls into the retry path, so a call whose every
attempt reports DISP_CHANGE_RESTART issues 3 ChangeDisplaySettingsExW
calls, not 1. -/
theorem changeResolution_restart_is_retried_counterexample :
    (changeResolutionForMonitor [⟨1280, 960, 144⟩] true true (fun _ => .restart)
      ⟨1280, 960, 144⟩ "\\\\.\\DISPLAY1").calls = 3 ∧
    (changeResolutionForMonitor [⟨1280, 960, 144⟩] true true (fun _ => .restart)
      ⟨1280, 960, 144⟩ "\\\\.\\DISPLAY1").result =
      .error (.retriesExhausted .restartRequired) := by
  constructor <;> rfl

/-- C3 amended: only the unsupported-mode pre-check (zero attempts) and the
DISP_CHANGE_BADMODE, BADFLAGS, BADPARAM and BADDUALVIEW codes (exactly one
attempt) are terminal and reported immediately without retry; RestartRequired
and the generic failed code are transient and lead to at least a second
attempt. -/
theorem changeResolution_terminal_codes_not_retried
    (modes : List DevMode) (attempts : Nat → DispChange)
    (resolution : Resolution) (monitorName : String)
    (hsup : isModeSupported modes resolution = true) :
    (∀ modes2, isModeSupported modes2 resolution = false →
      changeResolutionForMonitor modes2 true true attempts resolution monitorName =
        ⟨.error .notSupportedPre, 0, 0⟩) ∧
    (attempts 0 = .badMode ∨ attempts 0 = .badFlags ∨ attempts 0 = .badParam ∨
        attempts 0 = .badDualView →
      (changeResolutionForMonitor modes true true attempts resolution monitorName).calls = 1 ∧
      (changeResolutionForMonitor modes true true attempts resolution monitorName).sleeps = 0 ∧
      ∃ e, (changeResolutionForMonitor modes true true attempts resolution
        monitorName).result = .error e) ∧
    ((attempts 0).isTransient = true →
      2 ≤ (changeResolutionForMonitor modes true true attempts resolution
        monitorName).calls) := by
  refine ⟨fun modes2 h2 => ?_, fun hterm => ?_, fun htr => ?_⟩
  · unfold changeResolutionForMonitor
    rw [h2]
    rfl
  · unfold changeResolutionForMonitor
    rw [hsup]
    simp only [Bool.not_true, Bool.and_false, Bool.false_eq_true, if_false,
      Bool.not_false, if_true]
    rcases hterm with h | h | h | h <;>
      · rw [show (3 : Nat) = 2 + 1 by rfl]
        simp [retryLoop, h]
  · unfold changeResolutionForMonitor
    rw [hsup]
    simp only [Bool.not_true, Bool.and_false, Bool.false_eq_true, if_false,
      Bool.not_false, if_true]
    have step := retryLoop_step_transient attempts 3 2 .unknownChange
      (by simpa using htr)
    rw [show (3 : Nat) = 2 + 1 by rfl] at step
    rw [step]
    show 2 ≤ (retryLoop attempts 3 2 ((attempts (3 - (2 + 1))).lastError)).calls + 1
    have hpos := retryLoop_calls_pos attempts 3 1 ((attempts (3 - (2 + 1))).lastError)
    rw [show (1 : Nat) + 1 = 2 from rfl] at hpos
    omega

/-- Witness for the C3 amended theorem: with a supported mode and a first
attempt reporting DISP_CHANGE_BADMODE, exactly one call is made and an
error is returned; an unsupported pre-check makes zero calls; a transient
first attempt leads to at least two calls. -/
theorem changeResolution_terminal_codes_not_retried_witness :
    (∀ modes2, isModeSupported modes2 (Resolution.mk 1280 960 144) = false →
      changeResolutionForMonitor modes2 true true (fun _ => .badMode)
        (Resolution.mk 1280 960 144) "\\\\.\\DISPLAY1" =
        ⟨.error .notSupportedPre, 0, 0⟩) ∧
    ((fun _ => DispChange.badMode) 0 = DispChange.badMode ∨
        (fun _ => DispChange.badMode) 0 = DispChange.badFlags ∨
        (fun _ => DispChange.badMode) 0 = DispChange.badParam ∨
        (fun _ => DispChange.badMode) 0 = DispChange.badDualView →
      (changeResolutionForMonitor [⟨1280, 960, 144⟩] true true (fun _ => .badMode)
        (Resolution.mk 1280 960 144) "\\\\.\\DISPLAY1").calls = 1 ∧
      (changeResolutionForMonitor [⟨1280, 960, 144⟩] true true (fun _ => .badMode)
        (Resolution.mk 1280 960 144) "\\\\.\\DISPLAY1").sleeps = 0 ∧
      ∃ e, (changeResolutionForMonitor [⟨1280, 960, 144⟩] true true (fun _ => .badMode)
        (Resolution.mk 1280 960 144) "\\\\.\\DISPLAY1").result = .error e) ∧
    (((fun _ => DispChange.badMode) 0).isTransient = true →
      2 ≤ (changeResolutionForMonitor [⟨1280, 960, 144⟩] true true (fun _ => .badMode)
        (Resolution.mk 1280 960 144) "\\\\.\\DISPLAY1").calls) :=
  changeResolution_terminal_codes_not_retried [⟨1280, 960, 144⟩]
    (fun _ => .badMode) (Resolution.mk 1280 960 144) "\\\\.\\DISPLAY1" (by decide)

/- ------------------------------------------------------------------
config.go: LoadConfig.
------------------------------------------------------------------- -/

/-- Helper used by the embedding of LoadConfig: the Go statement
`config.PollInterval = 2` on the parsed struct, leaving every other field
unchanged. -/
def Config.withPollIntervalTwo (c : Config) : Config :=
  Config.mk c.applications 2 c.showGUIOnLaunch c.startWithWindows
    c.autoStartMonitoring

/-- LoadConfig from config.go lines 34-56.  `readResult` models
os.ReadFile(filename) (ok carries the raw bytes), `unmarshal` models
json.Unmarshal on those bytes.  A read or parse error is wrapped and
returned with no configuration; otherwise the parsed configuration is
returned, with PollInterval forced to 2 when the parsed value is at most 0
(Go int; an absent poll_interval field unmarshals to the zero value 0 and
therefore also receives the default). -/
def loadConfig (readResult : Except GoError (List Nat))
    (unmarshal : List Nat → Except GoError Config) : Except GoError Config :=
  match readResult with
  | .error e => .error (.wrapped "failed to read config file" e)
  | .ok data =>
    match unmarshal data with
    | .error e => .error (.wrapped "failed to parse config JSON" e)
    | .ok config =>
      if config.pollInterval ≤ 0 then .ok config.withPollIntervalTwo
      else .ok config

/-- C7: for every document whose poll_interval parses to an integer at most
0 (an absent field parses to 0), LoadConfig returns the parsed
configuration with PollInterval exactly 2 and every other field unchanged. -/
theorem loadConfig_poll_interval_defaulted (data : List Nat)
    (unmarshal : List Nat → Except GoError Config) (c : Config)
    (hparse : unmarshal data = .ok c) (hle : c.pollInterval ≤ 0) :
    loadConfig (.ok data) unmarshal =
      .ok (Config.mk c.applications 2 c.showGUIOnLaunch c.startWithWindows
        c.autoStartMonitoring) := by
  simp [loadConfig, hparse, if_pos hle, Config.withPollIntervalTwo]

/-- Witness for the C7 theorem: a document parsing to poll_interval 0 (the
absent-field value) yields PollInterval 2 with the other fields kept. -/
theorem loadConfig_poll_interval_defaulted_witness :
    loadConfig (.ok [123])
        (fun _ => .ok (Config.mk [] 0 true false true)) =
      .ok (Config.mk [] 2 true false true) :=
  loadConfig_poll_interval_defaulted [123]
    (fun _ => .ok (Config.mk [] 0 true false true))
    (Config.mk [] 0 true false true) rfl (by decide)

/-- C8: LoadConfig fails exactly when the read fails or the parse fails; in
either case the underlying error is surfaced (wrapped) to the caller, and
no configuration value is returned. -/
theorem loadConfig_fails_iff_read_or_parse_fails
    (readResult : Except GoError (List Nat))
    (unmarshal : List Nat → Except GoError Config) :
    ((∃ e, loadConfig readResult unmarshal = .error e) ↔
      (∃ e, readResult = .error e) ∨
        (∃ data e, readResult = .ok data ∧ unmarshal data = .error e)) ∧
    (∀ e, readResult = .error e →
      loadConfig readResult unmarshal =
        .error (.wrapped "failed to read config file" e)) ∧
    (∀ data e, readResult = .ok data → unmarshal data = .error e →
      loadConfig readResult unmarshal =
        .error (.wrapped "failed to parse config JSON" e)) := by
  refine ⟨⟨fun he => ?_, fun he => ?_⟩, fun e hr => ?_, fun data e hr hu => ?_⟩
  · obtain ⟨e, he⟩ := he
    cases readResult with
    | error e2 => exact Or.inl ⟨e2, rfl⟩
    | ok data =>
      cases hu : unmarshal data with
      | error e2 => exact Or.inr ⟨data, e2, rfl, hu⟩
      | ok c =>
        exfalso
        simp only [loadConfig, hu] at he
        split at he <;> simp at he
  · rcases he with ⟨e, he⟩ | ⟨data, e, hr, hu⟩
    · exact ⟨.wrapped "failed to read config file" e, by simp [loadConfig, he]⟩
    · exact ⟨.wrapped "failed to parse config JSON" e, by simp [loadConfig, hr, hu]⟩
  · simp [loadConfig, hr]
  · simp [loadConfig, hr, hu]

/-- Witness for the C8 theorem at a concrete failing read and failing
parse. -/
theorem loadConfig_fails_iff_read_or_parse_fails_witness :
    ((∃ e, loadConfig (.error .readFailed)
        (fun _ => .error .parseFailed) = .error e) ↔
      (∃ e, (Except.error .readFailed : Except GoError (List Nat)) = .error e) ∨
        (∃ data e, (Except.error .readFailed : Except GoError (List Nat)) = .ok data ∧
          (fun (_ : List Nat) => (Except.error .parseFailed : Except GoError Config))
            data = .error e)) ∧
    (∀ e, (Except.error .readFailed : Except GoError (List Nat)) = .error e →
      loadConfig (.error .readFailed) (fun _ => .error .parseFailed) =
        .error (.wrapped "failed to read config file" e)) ∧
    (∀ data e, (Except.error .readFailed : Except GoError (List Nat)) = .ok data →
      (fun (_ : List Nat) => (Except.error .parseFailed : Except GoError Config))
          data = .error e →
      loadConfig (.error .readFailed) (fun _ => .error .parseFailed) =
        .error (.wrapped "failed to parse config JSON" e)) :=
  loadConfig_fails_iff_read_or_parse_fails (.error .readFailed)
    (fun _ => .error .parseFailed)

/- ------------------------------------------------------------------
process.go: IsProcessRunning.
------------------------------------------------------------------- -/

/-- Embedding of strings.ToLower restricted to the ASCII range (Go lowers
the full Unicode table; every property proved below is relative to the
same lowering applied on both sides of the comparison, exactly as in the
source). -/
def goToLower (s : String) : String :=
  s.toLower

/-- IsProcessRunning from process.go lines 51-65, applied to a snapshot of
running process names (the snapshot acquisition itself is a syscall; its
failure path returns the error before this comparison loop runs).  The
loop lowers the configured name once, lowers each snapshot entry, and
returns true at the first match. -/
def isProcessRunning (processName : String) (processes : List String) : Bool :=
  processes.any fun proc => goToLower proc == goToLower processName

/-- C9: process-name matching is case-insensitive: IsProcessRunning is true
exactly when some snapshot entry equals the configured name once both are
lowercased, and any two query names with the same lowering are
interchangeable. -/
theorem isProcessRunning_case_insensitive (processName : String)
    (processes : List String) :
    (isProcessRunning processName processes = true ↔
      ∃ p ∈ processes, goToLower p = goToLower processName) ∧
    (∀ other, goToLower other = goToLower processName →
      isProcessRunning other processes = isProcessRunning processName processes) := by
  constructor
  · simp [isProcessRunning, List.any_eq_true]
  · intro other h
    simp [isProcessRunning, h]

/-- Witness for the C9 theorem: CS2.EXE is found in a snapshot containing
cs2.exe, and the query cs2.EXE behaves identically. -/
theorem isProcessRunning_case_insensitive_witness :
    (isProcessRunning "CS2.EXE" ["steam.exe", "cs2.exe"] = true ↔
      ∃ p ∈ ["steam.exe", "cs2.exe"], goToLower p = goToLower "CS2.EXE") ∧
    (∀ other, goToLower other = goToLower "CS2.EXE" →
      isProcessRunning other ["steam.exe", "cs2.exe"] =
        isProcessRunning "CS2.EXE" ["steam.exe", "cs2.exe"]) :=
  isProcessRunning_case_insensitive "CS2.EXE" ["steam.exe", "cs2.exe"]

/- ------------------------------------------------------------------
gui.go: stopMonitoring (lines 676-712).
------------------------------------------------------------------- -/

/-- The ResolutionMonitor bookkeeping fields read and written by
stopMonitoring: activeApps (process name to rule), currentAppRes (the
per-monitor override map) and originalRes (the per-monitor
originally-captured resolutions).  Go maps are modelled as association
lists; the list order stands for one of Go's unspecified iteration
orders. -/
structure MonitorState where
  activeApps : List (String × AppConfig)
  currentAppRes : List (String × Resolution)
  originalRes : List (String × Resolution)
deriving Repr

/-- Restore loop of stopMonitoring: for every monitor key in currentAppRes,
look up the originally captured resolution; a missing entry logs a warning
and continues; otherwise ChangeResolutionForMonitor is invoked with that
original resolution (`setMode` models its outcome) and a failure is logged
and the loop continues.  Returns the restore calls issued (monitor key and
target resolution, in iteration order) and the keys whose restore
failed. -/
def restoreLoop (setMode : String → Resolution → Except GoError Unit)
    (originalRes : List (String × Resolution)) :
    List (String × Resolution) →
      List (String × Resolution) × List String
  | [] => ([], [])
  | (monitorName, _) :: rest =>
    match originalRes.lookup monitorName with
    | none => restoreLoop setMode originalRes rest
    | some orig =>
      let tail := restoreLoop setMode originalRes rest
      ((monitorName, orig) :: tail.1,
       match setMode monitorName orig with
       | .ok _ => tail.2
       | .error _ => monitorName :: tail.2)

/-- stopMonitoring from gui.go lines 676-712.  When monitoring is running,
every overridden monitor is restored toward its originally captured
resolution via the restore loop, and afterwards activeApps and
currentAppRes are replaced by fresh empty maps (originalRes is untouched).
Returns the new running flag, the new bookkeeping state, the restore calls
issued, and the failed keys. -/
def stopMonitoring (isRunning : Bool) (st : MonitorState)
    (setMode : String → Resolution → Except GoError Unit) :
    Bool × MonitorState × List (String × Resolution) × List String :=
  if !isRunning then (isRunning, st, [], [])
  else
    let restored := restoreLoop setMode st.originalRes st.currentAppRes
    (false, MonitorState.mk [] [] st.originalRes, restored.1, restored.2)

/-- C1: on stop, every restore call targets the originally captured
resolution of its monitor (never a rule-specific restore resolution), one
call per overridden monitor that has a captured original, independent of
how many of the individual restores fail; and afterwards activeApps and
currentAppRes are cleared unconditionally. -/
theorem stopMonitoring_restores_originals_and_clears (st : MonitorState)
    (setMode : String → Resolution → Except GoError Unit) :
    (stopMonitoring true st setMode).2.2.1 =
      st.currentAppRes.filterMap (fun kv =>
        (st.originalRes.lookup kv.1).map (fun orig => (kv.1, orig))) ∧
    (stopMonitoring true st setMode).2.1.activeApps = [] ∧
    (stopMonitoring true st setMode).2.1.currentAppRes = [] ∧
    (stopMonitoring true st setMode).2.1.originalRes = st.originalRes := by
  refine ⟨?_, rfl, rfl, rfl⟩
  show (restoreLoop setMode st.originalRes st.currentAppRes).1 = _
  induction st.currentAppRes with
  | nil => rfl
  | cons kv rest ih =>
    obtain ⟨monitorName, res⟩ := kv
    simp only [restoreLoop, List.filterMap_cons]
    match h : st.originalRes.lookup monitorName with
    | none => simpa [h] using ih
    | some orig => simp [h, ih]

/-- C4: frequency 0 is a wildcard only in support-checking: IsModeSupported
with target frequency 0 accepts a mode matching width and height at any
frequency, while IsResolutionEqual compares width, height and frequency
exactly, so resolutions differing only in frequency are never equal. -/
theorem frequency_zero_wildcard_support_only
    (modes : List DevMode) (target : Resolution) (r1 r2 : Resolution) :
    (target.frequency = 0 →
      (isModeSupported modes target = true ↔
        ∃ m ∈ modes, m.pelsWidth = target.width ∧ m.pelsHeight = target.height)) ∧
    (isResolutionEqual r1 r2 = true ↔ r1 = r2) ∧
    (r1.frequency ≠ r2.frequency → isResolutionEqual r1 r2 = false) := by
  refine ⟨fun hf => ?_, ?_, fun hne => ?_⟩
  · simp [isModeSupported, hf, List.any_eq_true]
  · cases r1
    cases r2
    simp [isResolutionEqual, Resolution.mk.injEq, and_assoc]
  · cases r1
    cases r2
    simp only [isResolutionEqual]
    simp_all

/-- Witness for the C4 theorem at concrete resolutions: frequency 0 matches
a 60 Hz mode of the same dimensions, and 1280x960@144 differs from
1280x960@60. -/
theorem frequency_zero_wildcard_support_only_witness :
    ((Resolution.mk 1280 960 0).frequency = 0 →
      (isModeSupported [⟨1280, 960, 60⟩] (Resolution.mk 1280 960 0) = true ↔
        ∃ m ∈ [DevMode.mk 1280 960 60], m.pelsWidth = 1280 ∧ m.pelsHeight = 960)) ∧
    (isResolutionEqual (Resolution.mk 1280 960 144) (Resolution.mk 1280 960 60) = true ↔
      Resolution.mk 1280 960 144 = Resolution.mk 1280 960 60) ∧
    ((Resolution.mk 1280 960 144).frequency ≠ (Resolution.mk 1280 960 60).frequency →
      isResolutionEqual (Resolution.mk 1280 960 144) (Resolution.mk 1280 960 60) = false) :=
  frequency_zero_wildcard_support_only [⟨1280, 960, 60⟩]
    (Resolution.mk 1280 960 0) (Resolution.mk 1280 960 144) (Resolution.mk 1280 960 60)

/- ------------------------------------------------------------------
watcher.go: the Start event loop and its one-element config channel.
------------------------------------------------------------------- -/

/-- One fsnotify event as seen by the Start loop of watcher.go, together
with the outcome of the LoadConfig call the loop would make for it.
`name` is the event path after filepath.Clean (cleaning is modelled as
identity on the already-clean paths compared). -/
structure FsEvent where
  name : String
  isWrite : Bool
  parsed : Except GoError Config
deriving Repr

/-- One iteration of the Start loop of watcher.go (lines 45-87) on a
config-channel slot that no consumer is draining.  The channel has
capacity 1 (NewConfigWatcher, line 29), so the slot is `none` (empty) or
`some c` (holding an undelivered configuration).  A matching write event
reloads the configuration; a parse failure goes to the error channel and
leaves the slot alone; a parsed configuration is sent with a non-blocking
send: it fills an empty slot, and is skipped (dropped) when the slot is
already full. -/
def watcherStep (configPath : String) (slot : Option Config) (ev : FsEvent) :
    Option Config :=
  if ev.name == configPath && ev.isWrite then
    match ev.parsed with
    | .error _ => slot
    | .ok config =>
      match slot with
      | none => some config
      | some c => some c
  else slot

/-- The Start loop run over a burst of events arriving before the consumer
takes anything from the channel. -/
def watcherRun (configPath : String) (events : List FsEvent)
    (slot : Option Config) : Option Config :=
  events.foldl (watcherStep configPath) slot

/-- The successfully parsed configurations of the matching write events of
a burst, in arrival order. -/
def parsedConfigs (configPath : String) (events : List FsEvent) : List Config :=
  events.filterMap fun ev =>
    if ev.name == configPath && ev.isWrite then ev.parsed.toOption else none

/-- C5 counterexample: two write notifications for config.json arrive
before the consumer takes one, parsing to configurations with poll
intervals 2 and 5; the slot then holds the FIRST parsed configuration,
while the claim says the latest (the second) is the one kept. -/
theorem watcher_keeps_first_counterexample :
    watcherRun "config.json"
        [FsEvent.mk "config.json" true (.ok (Config.mk [] 2 true false true)),
         FsEvent.mk "config.json" true (.ok (Config.mk [] 5 true false true))]
        none =
      some (Config.mk [] 2 true false true) ∧
    Config.mk [] 2 true false true ≠ Config.mk [] 5 true false true := by
  constructor
  · rfl
  · decide

/-- A full slot absorbs every further event of a burst unchanged. -/
theorem watcherRun_full_slot (configPath : String) (events : List FsEvent)
    (c : Config) : watcherRun configPath events (some c) = some c := by
  induction events with
  | nil => rfl
  | cons ev rest ih =>
    show watcherRun configPath rest (watcherStep configPath (some c) ev) = some c
    have hstep : watcherStep configPath (some c) ev = some c := by
      unfold watcherStep
      split
      · cases ev.parsed <;> rfl
      · rfl
    rw [hstep, ih]

/-- C5 amended: configuration reload is coalesced through a bounded
one-element slot rather than a queue, and the configuration kept for the
consumer is the EARLIEST successfully parsed one of the burst; the later
reloads arriving while the slot is full are the ones dropped. -/
theorem watcher_coalesces_keeping_earliest (configPath : String)
    (events : List FsEvent) :
    watcherRun configPath events none =
      (parsedConfigs configPath events).head? := by
  induction events with
  | nil => rfl
  | cons ev rest ih =>
    show watcherRun configPath rest (watcherStep configPath none ev) = _
    by_cases hm : (ev.name == configPath && ev.isWrite) = true
    · cases hp : ev.parsed with
      | error e =>
        have h1 : watcherStep configPath none ev = none := by
          unfold watcherStep
          rw [if_pos hm, hp]
        have h2 : parsedConfigs configPath (ev :: rest) =
            parsedConfigs configPath rest := by
          unfold parsedConfigs
          rw [List.filterMap_cons, if_pos hm, hp]
          rfl
        rw [h1, h2]
        exact ih
      | ok config =>
        have h1 : watcherStep configPath none ev = some config := by
          unfold watcherStep
          rw [if_pos hm, hp]
        have h2 : parsedConfigs configPath (ev :: rest) =
            config :: parsedConfigs configPath rest := by
          unfold parsedConfigs
          rw [List.filterMap_cons, if_pos hm, hp]
          rfl
        rw [h1, h2, watcherRun_full_slot]
        rfl
    · have h1 : watcherStep configPath none ev = none := by
        unfold watcherStep
        rw [if_neg hm]
      have h2 : parsedConfigs configPath (ev :: rest) =
          parsedConfigs configPath rest := by
        unfold parsedConfigs
        rw [List.filterMap_cons, if_neg hm]
      rw [h1, h2]
      exact ih

/- ------------------------------------------------------------------
gui.go: loadConfig (lines 267-302), the startup configuration bootstrap.
------------------------------------------------------------------- -/

/-- Result of the GUI loadConfig call: the process either exits without a
configuration, fails with an error returned to Run, or continues with a
loaded configuration (updating the widgets).  The `exited` constructor
exists so that the first-run-bootstrap claim is statable; the embedded
code never produces it. -/
inductive StartupOutcome where
  | exited
  | failed (e : GoError)
  | loaded (c : Config)
deriving DecidableEq, Repr

/-- loadConfig from gui.go lines 267-302.  When the configuration file does
not exist, createDefaultConfig is called (its body is not part of src/: it
writes a default configuration document to the path; `createResult` models
its error result), a creation failure is wrapped and returned, and
otherwise the flow FALLS THROUGH to LoadConfig on the same path
(`loadResult` models its outcome, normally the just-written default) and
continues with the loaded configuration; there is no process exit on this
path. -/
def guiLoadConfig (fileExists : Bool) (createResult : Except GoError Unit)
    (loadResult : Except GoError Config) : StartupOutcome :=
  if !fileExists then
    match createResult with
    | .error e => .failed (.wrapped "failed to create default config" e)
    | .ok _ =>
      match loadResult with
      | .error e => .failed e
      | .ok config => .loaded config
  else
    match loadResult with
    | .error e => .failed e
    | .ok config => .loaded config

/-- C6 counterexample: with the configuration file absent, a successful
default-config creation and a successful load of the written default, the
GUI loadConfig continues with the loaded configuration instead of exiting
the process as the claim states. -/
theorem guiLoadConfig_continues_counterexample :
    guiLoadConfig false (.ok ()) (.ok (Config.mk [] 2 true false true)) =
      .loaded (Config.mk [] 2 true false true) ∧
    guiLoadConfig false (.ok ()) (.ok (Config.mk [] 2 true false true)) ≠
      .exited := by
  constructor
  · rfl
  · decide

/-- C6 amended: if the configuration file does not exist at startup, a
default configuration is synthesized and written to the path, and the
application then continues: it loads the newly written default and carries
on with it (or surfaces the creation or load error); it never exits the
process at this point. -/
theorem guiLoadConfig_missing_file_creates_default_and_continues
    (createResult : Except GoError Unit) (loadResult : Except GoError Config) :
    guiLoadConfig false createResult loadResult ≠ .exited ∧
    (∀ c, createResult = .ok () → loadResult = .ok c →
      guiLoadConfig false createResult loadResult = .loaded c) ∧
    (∀ e, createResult = .error e →
      guiLoadConfig false createResult loadResult =
        .failed (.wrapped "failed to create default config" e)) := by
  refine ⟨?_, fun c hcr hld => ?_, fun e hcr => ?_⟩
  · unfold guiLoadConfig
    cases createResult with
    | error e => simp
    | ok u =>
      cases loadResult with
      | error e => simp
      | ok c => simp
  · simp [guiLoadConfig, hcr, hld]
  · simp [guiLoadConfig, hcr]

/-- Witness for the C6 amended theorem at a concrete successful bootstrap
run. -/
theorem guiLoadConfig_missing_file_creates_default_and_continues_witness :
    guiLoadConfig false (.ok ()) (.ok (Config.mk [] 2 true false true)) ≠
      .exited ∧
    (∀ c, (Except.ok () : Except GoError Unit) = .ok () →
      (Except.ok (Config.mk [] 2 true false true) : Except GoError Config) = .ok c →
      guiLoadConfig false (.ok ()) (.ok (Config.mk [] 2 true false true)) =
        .loaded c) ∧
    (∀ e, (Except.ok () : Except GoError Unit) = .error e →
      guiLoadConfig false (.ok ()) (.ok (Config.mk [] 2 true false true)) =
        .failed (.wrapped "failed to create default config" e)) :=
  guiLoadConfig_missing_file_creates_default_and_continues (.ok ())
    (.ok (Config.mk [] 2 true false true))

/- ------------------------------------------------------------------
gui.go updateAppList / gui_helpers.go parseAppInfo: the list-entry string
codec.  Strings are modelled as `List Char`; every delimiter involved is
ASCII, so Go's byte indices and these rune indices identify the same
occurrences and split points.
------------------------------------------------------------------- -/

/-- The NUL byte separating the visible list entry from the hidden device
name. -/
def nulChar : Char := Char.ofNat 0

/-- The separator between process name and resolution in the entry
format. -/
def dashSepChars : List Char := [' ', '-', ' ']

/-- The two characters opening the monitor part of the entry format. -/
def spaceParenChars : List Char := [' ', '(']

/-- The Hz suffix of the resolution format. -/
def hzChars : List Char := ['H', 'z']

/-- The restore tag searched for inside the monitor part. -/
def restoreTagChars : List Char := "[Restore: ".toList

/-- The word compared against a restore string meaning no explicit restore
resolution. -/
def defaultChars : List Char := "default".toList

/-- The display name of the primary monitor, equivalent to the empty device
name. -/
def primaryMonitorChars : List Char := "Primary Monitor".toList

/-- strings.Split with a single-character separator: the list of maximal
runs between occurrences of the separator (always at least one part). -/
def splitOnChar (c : Char) : List Char → List (List Char)
  | [] => [[]]
  | a :: rest =>
    match splitOnChar c rest with
    | [] => [[a]]
    | s :: ss => if a == c then [] :: s :: ss else (a :: s) :: ss

/-- strings.Index for a substring pattern, as an optional first index (Go
returns -1 for no occurrence). -/
def substrIndex? (pat : List Char) (s : List Char) : Option Nat :=
  match s with
  | [] => if pat.isPrefixOf [] then some 0 else none
  | _ :: rest =>
    if pat.isPrefixOf s then some 0 else (substrIndex? pat rest).map (· + 1)

/-- strings.Contains, via substrIndex?. -/
def containsSub (pat s : List Char) : Bool :=
  (substrIndex? pat s).isSome

/-- The matching-parenthesis scan of parseAppInfo (gui_helpers.go lines
40-52): starting with `openCount` open parentheses, return the offset of
the closing parenthesis that balances them, if the scan finds one. -/
def findClose : List Char → Nat → Option Nat
  | [], _ => none
  | c :: rest, openCount =>
    if c = '(' then (findClose rest (openCount + 1)).map (· + 1)
    else if c = ')' then
      if openCount = 1 then some 0 else (findClose rest (openCount - 1)).map (· + 1)
    else (findClose rest openCount).map (· + 1)

/-- strings.TrimSuffix: remove one trailing copy of the suffix when
present. -/
def trimSuffix (s sfx : List Char) : List Char :=
  if sfx.isSuffixOf s then s.take (s.length - sfx.length) else s

/-- unicode.IsSpace as used by strings.TrimSpace: Go's White_Space
property, written out code point by code point. -/
def goIsSpace (c : Char) : Bool :=
  (9 ≤ c.toNat && c.toNat ≤ 13) || c.toNat = 32 || c.toNat = 0x85 ||
    c.toNat = 0xA0 || c.toNat = 0x1680 ||
    (0x2000 ≤ c.toNat && c.toNat ≤ 0x200A) || c.toNat = 0x2028 ||
    c.toNat = 0x2029 || c.toNat = 0x202F || c.toNat = 0x205F ||
    c.toNat = 0x3000

/-- strings.TrimSpace: drop leading and trailing white space. -/
def goTrimSpace (s : List Char) : List Char :=
  ((s.dropWhile goIsSpace).reverse.dropWhile goIsSpace).reverse

/-- Digit accumulation for the %d formatting, most significant first; the
fuel argument (always at least the value) makes the recursion
structural. -/
def natToCharsAux : Nat → Nat → List Char
  | 0, _ => []
  | fuel + 1, n =>
    if n = 0 then []
    else natToCharsAux fuel (n / 10) ++ [Nat.digitChar (n % 10)]

/-- fmt.Sprintf %d on an unsigned integer: decimal digits, most significant
first, with 0 printed as "0". -/
def natToChars (n : Nat) : List Char :=
  if n = 0 then ['0'] else natToCharsAux n n

/-- The accumulation agrees with the base-10 digit expansion. -/
theorem natToCharsAux_eq_digits (fuel : Nat) :
    ∀ n, n ≤ fuel →
      natToCharsAux fuel n = ((Nat.digits 10 n).map Nat.digitChar).reverse := by
  induction fuel with
  | zero =>
    intro n hn
    have : n = 0 := Nat.le_zero.mp hn
    subst this
    simp [natToCharsAux]
  | succ fuel ih =>
    intro n hn
    by_cases h0 : n = 0
    · subst h0
      simp [natToCharsAux]
    · have hpos : 0 < n := Nat.pos_of_ne_zero h0
      have hdiv : n / 10 ≤ fuel := by
        have : n / 10 < n := Nat.div_lt_self hpos (by norm_num)
        omega
      show (if n = 0 then [] else
        natToCharsAux fuel (n / 10) ++ [Nat.digitChar (n % 10)]) = _
      rw [if_neg h0, ih (n / 10) hdiv,
        Nat.digits_def' (b := 10) (by norm_num) hpos]
      simp

/-- The %d formatting of a nonzero value is its digit expansion, most
significant first. -/
theorem natToChars_eq_digits (n : Nat) (h : n ≠ 0) :
    natToChars n = ((Nat.digits 10 n).map Nat.digitChar).reverse := by
  unfold natToChars
  rw [if_neg h]
  exact natToCharsAux_eq_digits n n (Nat.le_refl n)

/-- strconv.ParseUint(s, 10, 32): a non-empty all-digit string below 2^32
parses to its decimal value, anything else is an error. -/
def parseUint32 (s : List Char) : Except GoError Nat :=
  if s = [] then .error .parseFailed
  else if s.all (fun c => c.isDigit) then
    let v := s.foldl (fun a c => 10 * a + (c.toNat - Char.toNat '0')) 0
    if v < 2 ^ 32 then .ok v else .error .parseFailed
  else .error .parseFailed

/-- splitOnChar never returns an empty list of parts. -/
theorem splitOnChar_ne_nil (c : Char) (s : List Char) : splitOnChar c s ≠ [] := by
  cases s with
  | nil => simp [splitOnChar]
  | cons a rest =>
    unfold splitOnChar
    match splitOnChar c rest with
    | [] => simp
    | s :: ss =>
      by_cases h : (a == c) = true
      · simp [h]
      · simp [h]

/-- A string free of the separator splits into itself alone. -/
theorem splitOnChar_of_not_mem (c : Char) (s : List Char) (h : c ∉ s) :
    splitOnChar c s = [s] := by
  induction s with
  | nil => rfl
  | cons a rest ih =>
    have ha : a ≠ c := fun hac => h (hac ▸ List.mem_cons_self a rest)
    have hrest : c ∉ rest := fun hm => h (List.mem_cons_of_mem a hm)
    unfold splitOnChar
    rw [ih hrest]
    simp [ha]

/-- Splitting at the first separator occurrence: a separator-free part
followed by the separator splits off that part. -/
theorem splitOnChar_append (c : Char) (a b : List Char) (h : c ∉ a) :
    splitOnChar c (a ++ c :: b) = a :: splitOnChar c b := by
  induction a with
  | nil =>
    show splitOnChar c (c :: b) = [] :: splitOnChar c b
    match hsp : splitOnChar c b with
    | [] => exact absurd hsp (splitOnChar_ne_nil c b)
    | s :: ss => simp [splitOnChar, hsp]
  | cons x a2 ih =>
    have hx : x ≠ c := fun hxc => h (hxc ▸ List.mem_cons_self x a2)
    have ha2 : c ∉ a2 := fun hm => h (List.mem_cons_of_mem x hm)
    show splitOnChar c (x :: (a2 ++ c :: b)) = (x :: a2) :: splitOnChar c b
    have hrec := ih ha2
    match hsp : splitOnChar c b with
    | [] => exact absurd hsp (splitOnChar_ne_nil c b)
    | s :: ss =>
      rw [hsp] at hrec
      simp [splitOnChar, hrec, hx]

/-- If a pattern occurs nowhere in a string, it is a prefix of no tail of
the string. -/
theorem containsSub_false_no_occurrence (pat s : List Char)
    (h : containsSub pat s = false) :
    ∀ i, pat.isPrefixOf (s.drop i) = false := by
  induction s with
  | nil =>
    intro i
    cases pat with
    | nil => simp [containsSub, substrIndex?, List.isPrefixOf] at h
    | cons p ps => simp [List.isPrefixOf]
  | cons x xs ih =>
    have hp : pat.isPrefixOf (x :: xs) = false := by
      cases hb : pat.isPrefixOf (x :: xs) with
      | false => rfl
      | true => simp [containsSub, substrIndex?, hb] at h
    have hxs : containsSub pat xs = false := by
      simp only [containsSub, substrIndex?, hp, Bool.false_eq_true, if_false] at h
      cases hsx : substrIndex? pat xs with
      | none => simp [containsSub, hsx]
      | some v =>
        rw [hsx] at h
        simp at h
    intro i
    cases i with
    | zero => exact hp
    | succ j => exact ih hxs j

/-- strings.Index finds the boundary occurrence: when the pattern heads the
suffix and occurs at no earlier position, the index is the prefix
length. -/
theorem substrIndex?_boundary (pat a b : List Char)
    (hb : pat.isPrefixOf b = true)
    (hno : ∀ i, i < a.length → pat.isPrefixOf (a.drop i ++ b) = false) :
    substrIndex? pat (a ++ b) = some a.length := by
  induction a with
  | nil =>
    cases b with
    | nil =>
      have : pat = [] := by
        cases pat with
        | nil => rfl
        | cons p ps => simp [List.isPrefixOf] at hb
      simp [substrIndex?, this, List.isPrefixOf]
    | cons y ys => simp [substrIndex?, hb]
  | cons x a2 ih =>
    have h0 : pat.isPrefixOf ((x :: a2) ++ b) = false := by
      simpa using hno 0 (by simp)
    show substrIndex? pat (x :: (a2 ++ b)) = some (a2.length + 1)
    unfold substrIndex?
    rw [show x :: (a2 ++ b) = (x :: a2) ++ b from rfl, h0]
    simp only [Bool.false_eq_true, if_false]
    rw [ih (fun i hi => by simpa using hno (i + 1) (by simpa using hi))]
    rfl

/-- A decimal digit below 10 prints as a digit character. -/
theorem digitChar_isDigit (d : Nat) (h : d < 10) :
    (Nat.digitChar d).isDigit = true := by
  interval_cases d <;> decide

/-- Reading back the printed value of a decimal digit below 10. -/
theorem digitChar_val (d : Nat) (h : d < 10) :
    (Nat.digitChar d).toNat - Char.toNat '0' = d := by
  interval_cases d <;> decide

/-- Every character of a printed number is a digit. -/
theorem natToChars_all_digits (n : Nat) :
    ∀ c ∈ natToChars n, c.isDigit = true := by
  intro c hc
  by_cases h0 : n = 0
  · rw [h0] at hc
    have : c = '0' := by simpa [natToChars] using hc
    subst this
    decide
  · rw [natToChars_eq_digits n h0, List.mem_reverse] at hc
    obtain ⟨d, hd, rfl⟩ := List.mem_map.mp hc
    exact digitChar_isDigit d (Nat.digits_lt_base (by norm_num) hd)

/-- A printed number is never the empty string. -/
theorem natToChars_ne_nil (n : Nat) : natToChars n ≠ [] := by
  by_cases h0 : n = 0
  · simp [natToChars, h0]
  · rw [natToChars_eq_digits n h0]
    simp [h0, Nat.digits_ne_nil_iff_ne_zero]

/-- Value of the ParseUint accumulation loop over printed digits, most
significant first. -/
theorem foldl_digit_chars (ds : List Nat) (h : ∀ d ∈ ds, d < 10) (a : Nat) :
    List.foldl (fun acc c => 10 * acc + (c.toNat - Char.toNat '0')) a
      ((ds.map Nat.digitChar).reverse) =
      a * 10 ^ ds.length + Nat.ofDigits 10 ds := by
  induction ds generalizing a with
  | nil => simp
  | cons d ds ih =>
    have hd : d < 10 := h d (List.mem_cons_self d ds)
    have hds : ∀ x ∈ ds, x < 10 := fun x hx => h x (List.mem_cons_of_mem d hx)
    simp only [List.map_cons, List.reverse_cons, List.foldl_append,
      List.foldl_cons, List.foldl_nil]
    rw [ih hds a, digitChar_val d hd, Nat.ofDigits_cons, List.length_cons,
      pow_succ]
    ring

/-- ParseUint inverts the %d formatting for every value that fits in 32
bits. -/
theorem parseUint32_natToChars (n : Nat) (h : n < 2 ^ 32) :
    parseUint32 (natToChars n) = .ok n := by
  have hall : (natToChars n).all (fun c => c.isDigit) = true := by
    rw [List.all_eq_true]
    exact natToChars_all_digits n
  have hval : (natToChars n).foldl
      (fun acc c => 10 * acc + (c.toNat - Char.toNat '0')) 0 = n := by
    by_cases h0 : n = 0
    · rw [h0]
      rfl
    · rw [natToChars_eq_digits n h0,
        foldl_digit_chars (Nat.digits 10 n)
          (fun d hd => Nat.digits_lt_base (by norm_num) hd) 0]
      simp [Nat.ofDigits_digits]
  unfold parseUint32
  rw [if_neg (natToChars_ne_nil n)]
  rw [hall]
  simp only [if_true]
  rw [hval]
  rw [if_pos h]

/-- The Go AppConfig struct with its string fields in the rune-list model
used by the list-entry codec. -/
structure AppConfigL where
  processName : List Char
  resolution : Resolution
  monitorName : List Char
  restoreResolution : Option Resolution
deriving DecidableEq, Repr

/-- parseResolutionString from gui_helpers.go lines 103-138: split on "@"
into exactly two parts, split the first on "x" into exactly two parts,
ParseUint width and height, strip the "Hz" suffix of the second part and
ParseUint the frequency. -/
def parseResolutionString (resStr : List Char) : Except GoError Resolution :=
  match splitOnChar '@' resStr with
  | [dimStr, freqPart] =>
    match splitOnChar 'x' dimStr with
    | [wStr, hStr] =>
      match parseUint32 wStr with
      | .error e => .error (.wrapped "invalid width" e)
      | .ok w =>
        match parseUint32 hStr with
        | .error e => .error (.wrapped "invalid height" e)
        | .ok h =>
          match parseUint32 (trimSuffix freqPart hzChars) with
          | .error e => .error (.wrapped "invalid frequency" e)
          | .ok f => .ok (Resolution.mk w h f)
    | _ => .error (.wrapped "invalid dimension format" .parseFailed)
  | _ => .error (.wrapped "invalid resolution format" .parseFailed)

/-- Restore-tag extraction of parseAppInfo (gui_helpers.go lines 58-72):
searches monitorStr for "[Restore: "; when found together with a closing
"]", the contents parse to the restore resolution unless they read
"default" or fail to parse (parse failures are ignored), and monitorStr is
truncated before the tag and trimmed.  In Go the slice bounds are always
valid because the tag itself contains no "]"; the truncated Nat
subtraction below agrees with it on every reachable input. -/
def extractRestore (monitorStr : List Char) :
    Option Resolution × List Char :=
  match substrIndex? restoreTagChars monitorStr with
  | none => (none, monitorStr)
  | some restoreIdx =>
    match substrIndex? [']'] (monitorStr.drop restoreIdx) with
    | none => (none, monitorStr)
    | some restoreEnd =>
      let restoreStr := (monitorStr.drop (restoreIdx + restoreTagChars.length)).take
        (restoreEnd - restoreTagChars.length)
      let rr :=
        if restoreStr = defaultChars then none
        else
          match parseResolutionString restoreStr with
          | .ok r => some r
          | .error _ => none
      (rr, goTrimSpace (monitorStr.take restoreIdx))

/-- parseAppInfo from gui_helpers.go lines 10-100.  `getDeviceName` models
g.getDeviceNameFromDisplayName (it consults the live monitor list through
syscalls) and is consulted only when the entry carries no hidden device
name after the NUL byte.  The steps mirror the source: split off the
hidden device name at the NUL byte, locate the first " - " for the process
name, locate the first " (" for the resolution/monitor boundary, scan for
the matching closing parenthesis, extract an optional restore tag, parse
the resolution, and resolve the monitor device name (an empty or
"Primary Monitor" result meaning the primary monitor). -/
def parseAppInfo (getDeviceName : List Char → List Char)
    (appInfoInput : List Char) : Except GoError AppConfigL :=
  let split :=
    match splitOnChar nulChar appInfoInput with
    | p0 :: p1 :: _ => (p0, p1)
    | _ => (appInfoInput, [])
  let appInfo := split.1
  let deviceName := split.2
  match substrIndex? dashSepChars appInfo with
  | none => .error (.wrapped "invalid application info format" .parseFailed)
  | some firstDashIndex =>
    let processName := appInfo.take firstDashIndex
    let remainder := appInfo.drop (firstDashIndex + 3)
    match substrIndex? spaceParenChars remainder with
    | none => .error (.wrapped "invalid resolution and monitor format" .parseFailed)
    | some firstOpenParen =>
      let resolutionStr := remainder.take firstOpenParen
      match findClose (remainder.drop (firstOpenParen + 2)) 1 with
      | none => .error (.wrapped "missing closing parenthesis" .parseFailed)
      | some off =>
        let monitorStr := (remainder.drop (firstOpenParen + 2)).take off
        let restored := extractRestore monitorStr
        match parseResolutionString resolutionStr with
        | .error e => .error (.wrapped "failed to parse resolution" e)
        | .ok resolution =>
          let monitorName :=
            if deviceName ≠ [] then goTrimSpace deviceName
            else goTrimSpace (getDeviceName restored.2)
          let monitorName2 :=
            if monitorName = primaryMonitorChars then [] else monitorName
          .ok (AppConfigL.mk processName resolution monitorName2 restored.1)

/-- The %dx%d@%dHz rendering of a resolution shared by updateAppList and
the monitor display-name decoration. -/
def resChars (res : Resolution) : List Char :=
  natToChars res.width ++ 'x' :: natToChars res.height ++
    '@' :: natToChars res.frequency ++ hzChars

/-- One list-entry string built by updateAppList (gui.go lines 304-324):
Sprintf("%s - %dx%d@%dHz (%s)\x00%s", processName, width, height,
frequency, monitorDisplay, monitorName) — the visible entry followed by a
NUL byte and the hidden device name. -/
def appInfoEntry (app : AppConfigL) (monitorDisplay : List Char) : List Char :=
  app.processName ++ dashSepChars ++ resChars app.resolution ++
    spaceParenChars ++ monitorDisplay ++ [')'] ++ nulChar :: app.monitorName

/-- MonitorInfo from display.go in the rune-list model. -/
structure MonitorInfoL where
  deviceName : List Char
  deviceString : List Char
  isPrimary : Bool
deriving DecidableEq, Repr

/-- The enumeration loop of getMonitorDisplayName: first monitor whose
device name matches, together with its index. -/
def findMonitor (deviceName : List Char) :
    List MonitorInfoL → Nat → Option (Nat × MonitorInfoL)
  | [], _ => none
  | m :: rest, i =>
    if m.deviceName = deviceName then some (i, m)
    else findMonitor deviceName rest (i + 1)

/-- getMonitorDisplayName from gui.go lines 822-860.  `monitorsResult`
models GetAvailableMonitors and `curRes` models
GetCurrentResolutionForMonitor.  An empty device name is the primary
monitor; an enumeration failure or an unmatched device name falls back to
the device name itself; a matched monitor renders its device string,
a " (Primary)" tag, a " [i+1]" index tag when several monitors exist, and
a current-resolution suffix when the resolution read succeeds. -/
def getMonitorDisplayName (monitorsResult : Except GoError (List MonitorInfoL))
    (curRes : List Char → Option Resolution) (deviceName : List Char) :
    List Char :=
  if deviceName = [] then primaryMonitorChars
  else
    match monitorsResult with
    | .error _ => deviceName
    | .ok monitors =>
      match findMonitor deviceName monitors 0 with
      | none => deviceName
      | some (i, monitor) =>
        let d1 := monitor.deviceString ++
          (if monitor.isPrimary then " (Primary)".toList else [])
        let d2 := d1 ++
          (if monitors.length > 1 then
            ' ' :: '[' :: natToChars (i + 1) ++ [']'] else [])
        d2 ++
          (match curRes monitor.deviceName with
           | some res => dashSepChars ++ resChars res
           | none => [])

/-- A character that is not a digit never occurs in a printed number. -/
theorem not_mem_natToChars (c : Char) (hc : c.isDigit = false) (n : Nat) :
    c ∉ natToChars n := by
  intro hm
  have := natToChars_all_digits n c hm
  rw [this] at hc
  exact Bool.noConfusion hc

/-- A character that is neither a digit nor one of the x @ H z separators
never occurs in a rendered resolution string. -/
theorem not_mem_resChars (c : Char) (hc : c.isDigit = false)
    (hx : c ≠ 'x') (ha : c ≠ '@') (hH : c ≠ 'H') (hz : c ≠ 'z')
    (res : Resolution) : c ∉ resChars res := by
  intro hm
  simp only [resChars, hzChars, List.mem_append, List.mem_cons,
    List.not_mem_nil, or_false] at hm
  have hwm := not_mem_natToChars c hc res.width
  have hhm := not_mem_natToChars c hc res.height
  have hfm := not_mem_natToChars c hc res.frequency
  tauto

/-- A process name containing no " - " and not ending in " -" admits no
" - " match before the separator appended after it. -/
theorem no_early_dash (proc rest : List Char)
    (h1 : containsSub dashSepChars proc = false)
    (h2 : [' ', '-'].isSuffixOf proc = false) :
    ∀ i, i < proc.length →
      dashSepChars.isPrefixOf (proc.drop i ++ (dashSepChars ++ rest)) = false := by
  intro i hi
  match hd : proc.drop i with
  | [] =>
    exfalso
    rw [List.drop_eq_nil_iff] at hd
    omega
  | [a] =>
    have hmid : ('-' == ' ') = false := by decide
    simp [dashSepChars, List.isPrefixOf, hmid]
  | [a, b] =>
    rcases Bool.eq_false_or_eq_true
      (dashSepChars.isPrefixOf ([a, b] ++ (dashSepChars ++ rest))) with hv | hv
    swap
    · exact hv
    · exfalso
      simp [dashSepChars, List.isPrefixOf] at hv
      obtain ⟨ha2, hb2⟩ := hv
      have hsuf : [' ', '-'] <:+ proc := by
        have hdrop := List.drop_suffix i proc
        rw [hd] at hdrop
        rw [ha2, hb2]
        exact hdrop
      have hcontra := (List.isSuffixOf_iff_suffix).mpr hsuf
      rw [h2] at hcontra
      exact Bool.noConfusion hcontra
  | a :: b :: c2 :: tail =>
    have hocc := containsSub_false_no_occurrence dashSepChars proc h1 i
    rw [hd] at hocc
    simp [dashSepChars, List.isPrefixOf] at hocc ⊢
    exact hocc

/-- A space-free string admits no " (" match before the opener appended
after it. -/
theorem no_early_space_paren (R rest : List Char) (hsp : ' ' ∉ R) :
    ∀ i, i < R.length →
      spaceParenChars.isPrefixOf (R.drop i ++ rest) = false := by
  intro i hi
  match hd : R.drop i with
  | [] =>
    exfalso
    rw [List.drop_eq_nil_iff] at hd
    omega
  | a :: t =>
    have ha : a ∈ R := List.drop_subset i R (by rw [hd]; exact List.mem_cons_self a t)
    have hne : (' ' == a) = false :=
      beq_eq_false_iff_ne.mpr fun hcontra => hsp (by rw [hcontra]; exact ha)
    simp [spaceParenChars, List.isPrefixOf, hne]

/-- parseResolutionString inverts the %dx%d@%dHz rendering for values that
fit in 32 bits. -/
theorem parseResolutionString_resChars (w h f : Nat)
    (hw : w < 2 ^ 32) (hh : h < 2 ^ 32) (hf : f < 2 ^ 32) :
    parseResolutionString (resChars (Resolution.mk w h f)) =
      .ok (Resolution.mk w h f) := by
  have hsplitAt : splitOnChar '@' (resChars (Resolution.mk w h f)) =
      [natToChars w ++ 'x' :: natToChars h, natToChars f ++ hzChars] := by
    have hform : resChars (Resolution.mk w h f) =
        (natToChars w ++ 'x' :: natToChars h) ++
          '@' :: (natToChars f ++ hzChars) := by
      simp [resChars, List.append_assoc]
    have hnoatA : '@' ∉ natToChars w ++ 'x' :: natToChars h := by
      intro hm
      rcases List.mem_append.mp hm with hma | hmb
      · exact not_mem_natToChars '@' (by decide) w hma
      · rcases List.mem_cons.mp hmb with hmc | hmd
        · exact absurd hmc (by decide)
        · exact not_mem_natToChars '@' (by decide) h hmd
    have hnoatB : '@' ∉ natToChars f ++ hzChars := by
      intro hm
      rcases List.mem_append.mp hm with hma | hmb
      · exact not_mem_natToChars '@' (by decide) f hma
      · revert hmb
        decide
    rw [hform, splitOnChar_append '@' _ _ hnoatA,
      splitOnChar_of_not_mem '@' _ hnoatB]
  have hsplitX : splitOnChar 'x' (natToChars w ++ 'x' :: natToChars h) =
      [natToChars w, natToChars h] := by
    rw [splitOnChar_append 'x' _ _ (not_mem_natToChars 'x' (by decide) w),
      splitOnChar_of_not_mem 'x' _ (not_mem_natToChars 'x' (by decide) h)]
  have htrim : trimSuffix (natToChars f ++ hzChars) hzChars = natToChars f := by
    unfold trimSuffix
    have hsuf : hzChars.isSuffixOf (natToChars f ++ hzChars) = true := by
      rw [List.isSuffixOf_iff_suffix]
      exact List.suffix_append _ _
    rw [hsuf]
    simp only [if_true]
    have hlen : (natToChars f ++ hzChars).length - hzChars.length =
        (natToChars f).length := by
      simp [hzChars]
    rw [hlen, List.take_left]
  simp only [parseResolutionString, hsplitAt, hsplitX,
    parseUint32_natToChars w hw, parseUint32_natToChars h hh, htrim,
    parseUint32_natToChars f hf]

/-- The visible part of a list entry, before the hidden NUL byte and device
name. -/
def entryVisible (proc : List Char) (res : Resolution) (display : List Char) :
    List Char :=
  proc ++ dashSepChars ++ resChars res ++ spaceParenChars ++ display ++ [')']

/-- A list entry is its visible part, the NUL byte, and the device name. -/
theorem appInfoEntry_split (proc : List Char) (res : Resolution)
    (mon : List Char) (rr0 : Option Resolution) (display : List Char) :
    appInfoEntry (AppConfigL.mk proc res mon rr0) display =
      entryVisible proc res display ++ nulChar :: mon := rfl

/-- C10 counterexample: the claim quantifies over every AppConfig whose
process name is non-empty without " - " and whose monitor name is neither
empty nor "Primary Monitor"; the monitor name consisting of a space
followed by X satisfies all of that, yet parseAppInfo returns the monitor
name with the leading space stripped (the code applies strings.TrimSpace
to the hidden device name), so the parsed MonitorName differs from the
original. -/
theorem parseAppInfo_roundtrip_counterexample :
    (['a'] : List Char) ≠ [] ∧
    containsSub dashSepChars ['a'] = false ∧
    ([' ', 'X'] : List Char) ≠ [] ∧
    ([' ', 'X'] : List Char) ≠ primaryMonitorChars ∧
    parseAppInfo (fun s => s)
      (appInfoEntry (AppConfigL.mk ['a'] (Resolution.mk 1 2 3) [' ', 'X'] none)
        (getMonitorDisplayName (.ok []) (fun _ => none) [' ', 'X'])) =
      .ok (AppConfigL.mk ['a'] (Resolution.mk 1 2 3) ['X'] none) ∧
    ([' ', 'X'] : List Char) ≠ ['X'] := by
  exact ⟨by decide, by decide, by decide, by decide, by rfl, by decide⟩

/-- C10 amended: the GUI list-entry round trip holds under the conditions
the code actually needs: the process name contains no " - ", does not end
in " -", and contains no NUL byte; the monitor device name is non-empty,
differs from "Primary Monitor", contains no NUL byte and is unchanged by
strings.TrimSpace; the rendered monitor display name contains no NUL byte
and its parentheses close under the matching scan; and the resolution
components fit in 32 bits.  Then parseAppInfo applied to the updateAppList
entry returns the same ProcessName, the same Resolution (width, height and
frequency exactly) and the same MonitorName. -/
theorem parseAppInfo_inverts_updateAppList_entry
    (proc mon display : List Char) (w h f : Nat) (rr0 : Option Resolution)
    (getDeviceName : List Char → List Char)
    (hw : w < 2 ^ 32) (hh2 : h < 2 ^ 32) (hf : f < 2 ^ 32)
    (_hprocNe : proc ≠ [])
    (hprocDash : containsSub dashSepChars proc = false)
    (hprocTail : [' ', '-'].isSuffixOf proc = false)
    (hprocNul : nulChar ∉ proc)
    (hmonNe : mon ≠ [])
    (hmonNul : nulChar ∉ mon)
    (hmonTrim : goTrimSpace mon = mon)
    (hmonPrim : mon ≠ primaryMonitorChars)
    (hdispNul : nulChar ∉ display)
    (hdispClose : findClose (display ++ [')']) 1 ≠ none) :
    ∃ rr, parseAppInfo getDeviceName
        (appInfoEntry (AppConfigL.mk proc (Resolution.mk w h f) mon rr0)
          display) =
      .ok (AppConfigL.mk proc (Resolution.mk w h f) mon rr) := by
  obtain ⟨off, hoff⟩ := Option.ne_none_iff_exists'.mp hdispClose
  have hvisNul : nulChar ∉ entryVisible proc (Resolution.mk w h f) display := by
    intro hm
    simp only [entryVisible, List.mem_append, List.mem_singleton] at hm
    rcases hm with ((((hm | hm) | hm) | hm) | hm) | hm
    · exact hprocNul hm
    · exact absurd hm (by decide)
    · exact not_mem_resChars nulChar (by decide) (by decide) (by decide)
        (by decide) (by decide) _ hm
    · exact absurd hm (by decide)
    · exact hdispNul hm
    · exact absurd hm (by decide)
  have h1 : splitOnChar nulChar
      (appInfoEntry (AppConfigL.mk proc (Resolution.mk w h f) mon rr0)
        display) =
      entryVisible proc (Resolution.mk w h f) display :: [mon] := by
    rw [appInfoEntry_split, splitOnChar_append nulChar _ mon hvisNul,
      splitOnChar_of_not_mem nulChar mon hmonNul]
  have hform1 : entryVisible proc (Resolution.mk w h f) display =
      proc ++ (dashSepChars ++ (resChars (Resolution.mk w h f) ++
        (spaceParenChars ++ (display ++ [')'])))) := by
    simp [entryVisible, List.append_assoc]
  have h2 : substrIndex? dashSepChars
      (entryVisible proc (Resolution.mk w h f) display) = some proc.length := by
    rw [hform1]
    refine substrIndex?_boundary dashSepChars proc _ ?_ ?_
    · rw [List.isPrefixOf_iff_prefix]
      exact List.prefix_append _ _
    · exact no_early_dash proc _ hprocDash hprocTail
  have h3 : (entryVisible proc (Resolution.mk w h f) display).take proc.length
      = proc := by
    rw [hform1, List.take_left]
  have h4 : (entryVisible proc (Resolution.mk w h f) display).drop
      (proc.length + 3) =
      resChars (Resolution.mk w h f) ++ (spaceParenChars ++ (display ++ [')'])) := by
    have hform2 : entryVisible proc (Resolution.mk w h f) display =
        (proc ++ dashSepChars) ++ (resChars (Resolution.mk w h f) ++
          (spaceParenChars ++ (display ++ [')']))) := by
      simp [entryVisible, List.append_assoc]
    rw [hform2, List.drop_left' (by simp [dashSepChars])]
  have hspR : ' ' ∉ resChars (Resolution.mk w h f) :=
    not_mem_resChars ' ' (by decide) (by decide) (by decide) (by decide)
      (by decide) _
  have h5 : substrIndex? spaceParenChars
      (resChars (Resolution.mk w h f) ++
        (spaceParenChars ++ (display ++ [')']))) =
      some (resChars (Resolution.mk w h f)).length := by
    refine substrIndex?_boundary spaceParenChars _ _ ?_ ?_
    · rw [List.isPrefixOf_iff_prefix]
      exact List.prefix_append _ _
    · exact no_early_space_paren _ _ hspR
  have h6 : (resChars (Resolution.mk w h f) ++
      (spaceParenChars ++ (display ++ [')']))).take
        (resChars (Resolution.mk w h f)).length =
      resChars (Resolution.mk w h f) := List.take_left _ _
  have h7 : (resChars (Resolution.mk w h f) ++
      (spaceParenChars ++ (display ++ [')']))).drop
        ((resChars (Resolution.mk w h f)).length + 2) = display ++ [')'] := by
    have hform3 : resChars (Resolution.mk w h f) ++
        (spaceParenChars ++ (display ++ [')'])) =
        (resChars (Resolution.mk w h f) ++ spaceParenChars) ++
          (display ++ [')']) := by
      simp [List.append_assoc]
    rw [hform3, List.drop_left' (by simp [spaceParenChars])]
  have h9 := parseResolutionString_resChars w h f hw hh2 hf
  refine ⟨(extractRestore ((display ++ [')']).take off)).1, ?_⟩
  simp only [parseAppInfo, h1, h2, h3, h4, h5, h6, h7, hoff, h9, hmonTrim]
  simp [hmonNe, hmonPrim]

/-- Witness for the C10 amended theorem at a concrete entry: cs2.exe at
1280x960@144 on device \\.\D1 rendered with display name "D1 (P)". -/
theorem parseAppInfo_inverts_updateAppList_entry_witness :
    ∃ rr, parseAppInfo (fun s => s)
        (appInfoEntry
          (AppConfigL.mk ['c', 's', '2', '.', 'e', 'x', 'e']
            (Resolution.mk 1280 960 144)
            ['\\', '\\', '.', '\\', 'D', '1'] none)
          ['D', '1', ' ', '(', 'P', ')']) =
      .ok (AppConfigL.mk ['c', 's', '2', '.', 'e', 'x', 'e']
        (Resolution.mk 1280 960 144)
        ['\\', '\\', '.', '\\', 'D', '1'] rr) :=
  parseAppInfo_inverts_updateAppList_entry
    ['c', 's', '2', '.', 'e', 'x', 'e'] ['\\', '\\', '.', '\\', 'D', '1']
    ['D', '1', ' ', '(', 'P', ')'] 1280 960 144 none (fun s => s)
    (by decide) (by decide) (by decide) (by decide) (by decide) (by decide)
    (by decide) (by decide) (by decide) (by decide) (by decide) (by decide)
    (by decide)

end Csres
